import Mathlib

/-!
Verification of the release-build orchestrator in
`src/scripts/jobs/build-release.js` (openupm).

The driver is shallowly embedded: the persisted release record, the
partial-field updates applied to it, the polling loop, the failure
classifier and the build-name function are translated directly from the
source.  External effects (record-store updates, queueing a build,
polling the pipeline, waiting, fetching the publish log) are recorded in
an explicit event trace; the environment (pipeline answers, queued build
id, publish-log text) is an explicit parameter.
-/

namespace BuildRelease

/-- Release lifecycle states (`ReleaseState` in `app/models/common`). -/
inductive RState
  | pending
  | building
  | succeeded
  | failed
deriving DecidableEq, Repr

/-- Failure reasons (`ReleaseReason` in `app/models/common`); `empty`
models the empty-string reason `''`. -/
inductive Reason
  | empty
  | timeout
  | publishConflict
  | nonPackage
  | badGateway
  | serverError
deriving DecidableEq, Repr

/-- Azure DevOps `BuildStatus` values used by the job. -/
inductive BStatus
  | notSet
  | inProgress
  | completed
  | cancelling
  | postponed
  | notStarted
deriving DecidableEq, Repr

/-- Azure DevOps `BuildResult` values. -/
inductive BResult
  | notSet
  | succeeded
  | partiallySucceeded
  | failed
  | canceled
deriving DecidableEq, Repr

/-- The transient view of a pipeline build returned by `getBuild`;
`result` is `none` when the field is `undefined`. -/
structure Build where
  status : BStatus
  result : Option BResult
deriving DecidableEq, Repr

/-- The persisted release record (fields the job reads or writes). -/
structure Release where
  id : Nat
  state : RState
  build_id : String
  reason : Reason
  publish_log : String
deriving DecidableEq, Repr

/-- A partial-field update, as passed to `this.release.update({...})`:
`none` means the field is absent from the update object. -/
structure Update where
  state : Option RState
  build_id : Option String
  reason : Option Reason
  publish_log : Option String
deriving DecidableEq, Repr

/-- Apply a partial update to the persisted record. -/
def applyUpdate (r : Release) (u : Update) : Release :=
  { r with
    state := u.state.getD r.state
    build_id := u.build_id.getD r.build_id
    reason := u.reason.getD r.reason
    publish_log := u.publish_log.getD r.publish_log }

/-- Externally observable operations of one driver invocation. -/
inductive Event
  | update (u : Update)
  | queueBuild
  | getBuild (buildId : String)
  | sleep (ms : Nat)
  | fetchLog
deriving DecidableEq, Repr

/-- Whether the invocation returned normally or raised an error
(`throw new Error(...)`), which the spec calls a retryable failure. -/
inductive Outcome
  | ok
  | error
deriving DecidableEq, Repr

/-- The configuration values read from `config.azureDevops.check`. -/
structure Config where
  retries : Nat
  retryIntervalStep : Nat
  duration : Nat

/-- The external world: what the pipeline answers on the i-th poll of
this invocation, the id `queueBuild` returns, and the publish-log text
the log fetcher returns. -/
structure Env where
  polls : Nat → Build
  queuedBuildId : Nat
  publishLog : String

/-- `build.status == BuildStatus.Completed || build.status == BuildStatus.Cancelling`. -/
def isTerminalStatus (b : Build) : Bool :=
  b.status = BStatus.completed || b.status = BStatus.cancelling

/-- The loop body of `checkBuildPipelines`: `fuel` is the number of
remaining attempts, `i` the current attempt index.  Each attempt fetches
the build; a terminal status is returned at once, otherwise the loop
sleeps `step * (i+1)` and retries. -/
def checkLoop (step : Nat) (polls : Nat → Build) (buildId : String) :
    Nat → Nat → Option Build × List Event
  | 0, _ => (none, [])
  | fuel + 1, i =>
    let b := polls i
    if isTerminalStatus b then
      (some b, [Event.getBuild buildId])
    else
      let rest := checkLoop step polls buildId fuel (i + 1)
      (rest.1, Event.getBuild buildId :: Event.sleep (step * (i + 1)) :: rest.2)

/-- `ReleaseBuilder.checkBuildPipelines`: poll at most `cfg.retries`
times; return the build on `Completed`/`Cancelling`, `none` on retry
exhaustion. -/
def checkBuildPipelines (cfg : Config) (env : Env) (buildId : String) :
    Option Build × List Event :=
  checkLoop cfg.retryIntervalStep env.polls buildId cfg.retries 0

/-- `ReleaseBuilder.getReasonFromPublishLog`: substring containment,
`text.includes(pat)`. -/
def containsSub (text pat : String) : Bool :=
  decide (List.IsInfix pat.toList text.toList)

/-- `ReleaseBuilder.getReasonFromPublishLog`: scan the log text against
the substring rules in order and return the first match, `empty` if
none. -/
def getReasonFromPublishLog (text : String) : Reason :=
  if containsSub text "EPUBLISHCONFLICT" then Reason.publishConflict
  else if containsSub text "ENOENT" && containsSub text "error path package.json" then
    Reason.nonPackage
  else if containsSub text "error code E502" then Reason.badGateway
  else if containsSub text "error code E500" then Reason.serverError
  else Reason.empty

/-- The update object `{ state: ReleaseState.building }`. -/
def uBuildingKeepId : Update :=
  { state := some RState.building, build_id := none, reason := none, publish_log := none }

/-- The update object `{ state: ReleaseState.building, build_id: '' }`. -/
def uBuildingClearId : Update :=
  { state := some RState.building, build_id := some "", reason := none, publish_log := none }

/-- The update object `{ build_id: build.id + '' }`. -/
def uSetBuildId (bid : String) : Update :=
  { state := none, build_id := some bid, reason := none, publish_log := none }

/-- The update object `{ state: ReleaseState.failed, reason: ReleaseReason.timeout }`. -/
def uFailedTimeout : Update :=
  { state := some RState.failed, build_id := none, reason := some Reason.timeout, publish_log := none }

/-- The update object `{ state: ReleaseState.succeeded }`. -/
def uSucceeded : Update :=
  { state := some RState.succeeded, build_id := none, reason := none, publish_log := none }

/-- The update object `{ state: ReleaseState.failed }`. -/
def uFailed : Update :=
  { state := some RState.failed, build_id := none, reason := none, publish_log := none }

/-- The update object `{ publish_log: publishLog, reason }`. -/
def uLogAndReason (log : String) : Update :=
  { state := none, build_id := none,
    reason := some (getReasonFromPublishLog log), publish_log := some log }

/-- Lines 42-47 of `build()`: the initial state transition.  A timed-out
failure resumes (state to `building`, `build_id` untouched); `pending`
or any other failure starts fresh (state to `building`, `build_id`
cleared); otherwise (`building`) no update is issued. -/
def transitionRelease (r : Release) : Release × List Event :=
  if r.state = RState.failed ∧ r.reason = Reason.timeout then
    (applyUpdate r uBuildingKeepId, [Event.update uBuildingKeepId])
  else if r.state = RState.pending ∨ r.state = RState.failed then
    (applyUpdate r uBuildingClearId, [Event.update uBuildingClearId])
  else
    (r, [])

/-- Lines 51-56 of `build()`: if no `build_id` is present, queue a new
build, persist the returned id, and sleep the configured fixed delay. -/
def ensureBuildQueued (cfg : Config) (env : Env) (r : Release) : Release × List Event :=
  if r.build_id = "" then
    let u := uSetBuildId (toString env.queuedBuildId)
    (applyUpdate r u, [Event.queueBuild, Event.update u, Event.sleep cfg.duration])
  else
    (r, [])

/-- Lines 59-93 of `build()`: interpret the polling outcome.  `none`
persists `failed`/`timeout` and raises; `Completed`+`Succeeded` persists
`succeeded`; anything else persists `failed`, on `Completed`+`Failed`
additionally fetches the log and persists `reason`/`publish_log`
together, then raises exactly when the reason classifies as
`badGateway` or `serverError`. -/
def finishBuild (env : Env) (r : Release) (res : Option Build) :
    Release × List Event × Outcome :=
  match res with
  | none =>
    (applyUpdate r uFailedTimeout, [Event.update uFailedTimeout], Outcome.error)
  | some b =>
    if b.status = BStatus.completed ∧ b.result = some BResult.succeeded then
      (applyUpdate r uSucceeded, [Event.update uSucceeded], Outcome.ok)
    else
      let r1 := applyUpdate r uFailed
      if b.status = BStatus.completed ∧ b.result = some BResult.failed then
        let log := env.publishLog
        let reason := getReasonFromPublishLog log
        let r2 := applyUpdate r1 (uLogAndReason log)
        let evs := [Event.update uFailed, Event.fetchLog, Event.update (uLogAndReason log)]
        if reason ≠ Reason.badGateway ∧ reason ≠ Reason.serverError then
          (r2, evs, Outcome.ok)
        else
          (r2, evs, Outcome.error)
      else
        if Reason.empty ≠ Reason.badGateway ∧ Reason.empty ≠ Reason.serverError then
          (r1, [Event.update uFailed], Outcome.ok)
        else
          (r1, [Event.update uFailed], Outcome.error)

/-- `ReleaseBuilder.build()`: the whole driver invocation.  Returns the
final persisted record, the trace of external operations, and whether an
error was raised. -/
def build (cfg : Config) (env : Env) (r : Release) : Release × List Event × Outcome :=
  if r.state = RState.succeeded then
    (r, [], Outcome.ok)
  else
    let s1 := transitionRelease r
    let s2 := ensureBuildQueued cfg env s1.1
    let p := checkBuildPipelines cfg env s2.1.build_id
    let s3 := finishBuild env s2.1 p.1
    (s3.1, s1.2 ++ s2.2 ++ p.2 ++ s3.2.1, s3.2.2)

/-- Characters the `getBuildName` regex replaces with underscore. -/
def isIllegalChar (c : Char) : Bool :=
  c = '/' || c = ':' || c = '<' || c = '>' || c = '\\' || c = '|' || c = '?' || c = '@' || c = '*'

/-- A single character after the replacement pass. -/
def sanitizeChar (c : Char) : Char :=
  if isIllegalChar c then '_' else c

/-- `getBuildName` from `build-release.js`: compose
`rel#<id>-<name>#<version>` with a leading `@` stripped from the
name-version pair, replace illegal characters with `_`, and truncate to
`255 - 55 = 200` characters. -/
def getBuildName (releaseId : Nat) (packageName packageVer : String) : String :=
  let bn0 := packageName ++ "#" ++ packageVer
  let bn1 := if ['@'].isPrefixOf bn0.toList then String.mk (bn0.toList.drop 1) else bn0
  let bn2 := "rel#" ++ toString releaseId ++ "-" ++ bn1
  let bn3 := String.mk (bn2.toList.map sanitizeChar)
  String.mk (bn3.toList.take (255 - 55))

/-- The record after the transition and queue stages of `build()`, i.e.
the release the polling loop runs against. -/
def preparedRelease (cfg : Config) (env : Env) (r : Release) : Release :=
  (ensureBuildQueued cfg env (transitionRelease r).1).1

/-- The events emitted by the transition and queue stages of `build()`. -/
def stageEvents (cfg : Config) (env : Env) (r : Release) : List Event :=
  (transitionRelease r).2 ++ (ensureBuildQueued cfg env (transitionRelease r).1).2

/-- The polling-loop result inside `build()`. -/
def pollResult (cfg : Config) (env : Env) (r : Release) : Option Build :=
  (checkBuildPipelines cfg env (preparedRelease cfg env r).build_id).1

/-- The polling-loop events inside `build()`. -/
def pollEvents (cfg : Config) (env : Env) (r : Release) : List Event :=
  (checkBuildPipelines cfg env (preparedRelease cfg env r).build_id).2

/-- The waits recorded in a trace, in order. -/
def sleepDurations (evs : List Event) : List Nat :=
  evs.filterMap fun e =>
    match e with
    | Event.sleep d => some d
    | _ => none

/-- Whether an event is the queueing of a new build. -/
def isQueueEv : Event → Bool
  | Event.queueBuild => true
  | _ => false

/-- Whether an event is a record-store update. -/
def isUpdateEv : Event → Bool
  | Event.update _ => true
  | _ => false

/-- Whether an event is a single record-store update carrying the state
field, the reason field and the publish-log field all together. -/
def setsStateReasonAndLog : Event → Bool
  | Event.update u => u.state.isSome && u.reason.isSome && u.publish_log.isSome
  | _ => false

/-- One rule of the classifier as the spec describes it: a substring
test paired with the reason it yields. -/
structure LogRule where
  test : String → Bool
  reason : Reason

/-- The spec's rule list for §4.3 failure classification, in its stated
priority order. -/
def specLogRules : List LogRule :=
  [⟨fun t => containsSub t "EPUBLISHCONFLICT", Reason.publishConflict⟩,
   ⟨fun t => containsSub t "ENOENT" && containsSub t "error path package.json", Reason.nonPackage⟩,
   ⟨fun t => containsSub t "error code E502", Reason.badGateway⟩,
   ⟨fun t => containsSub t "error code E500", Reason.serverError⟩]

/-- The spec's wording of the classifier: scan the rules in order and
return the first match, `empty` when none matches. -/
def specFirstMatch (rules : List LogRule) (t : String) : Reason :=
  match rules.find? (fun rule => rule.test t) with
  | some rule => rule.reason
  | none => Reason.empty

/-- One-retry configuration used for concrete instantiations. -/
def cfgW : Config := ⟨1, 10, 99⟩

/-- Two-retry configuration used for concrete instantiations. -/
def cfgW2 : Config := ⟨2, 10, 99⟩

/-- Three-retry configuration used for concrete instantiations. -/
def cfgW3 : Config := ⟨3, 10, 99⟩

/-- Environment whose pipeline always answers `Completed`/`Failed` and
whose publish log classifies as `badGateway`. -/
def envCF : Env :=
  ⟨fun _ => ⟨BStatus.completed, some BResult.failed⟩, 77, "error code E502"⟩

/-- Environment whose pipeline always answers `InProgress`. -/
def envTO : Env :=
  ⟨fun _ => ⟨BStatus.inProgress, none⟩, 77, ""⟩

/-- Environment whose pipeline answers `InProgress` twice and then
`Completed`/`Succeeded`. -/
def envStep : Env :=
  ⟨fun i => if i < 2 then ⟨BStatus.inProgress, none⟩
            else ⟨BStatus.completed, some BResult.succeeded⟩, 77, ""⟩

/-- A release already in `building` state with a known build id. -/
def rBuildingW : Release := ⟨5, RState.building, "7", Reason.empty, ""⟩

/-- A fresh release in `pending` state. -/
def rPendingW : Release := ⟨5, RState.pending, "", Reason.empty, ""⟩

/-- A release that previously timed out, with its build id recorded. -/
def rTimeoutW : Release := ⟨5, RState.failed, "7", Reason.timeout, ""⟩

/-- A release that previously timed out but has no build id. -/
def rTimeoutEmptyW : Release := ⟨5, RState.failed, "", Reason.timeout, ""⟩

/-- A release already in the terminal `succeeded` state. -/
def rSucceededW : Release := ⟨5, RState.succeeded, "7", Reason.empty, ""⟩

/-- Every event of the polling loop is either a poll of the given build
id or a wait. -/
theorem checkLoop_events (step : Nat) (polls : Nat → Build) (bid : String) :
    ∀ fuel i, ∀ e ∈ (checkLoop step polls bid fuel i).2,
      e = Event.getBuild bid ∨ ∃ d, e = Event.sleep d := by
  intro fuel
  induction fuel with
  | zero => intro i e he; simp [checkLoop] at he
  | succ n ih =>
    intro i e he
    rw [checkLoop] at he
    by_cases h : isTerminalStatus (polls i) = true
    · simp only [h, if_true] at he
      simp at he
      exact Or.inl he
    · simp only [eq_false_of_ne_true h] at he
      simp only [Bool.false_eq_true, if_false, List.mem_cons] at he
      rcases he with he | he | he
      · exact Or.inl he
      · exact Or.inr ⟨_, he⟩
      · exact ih (i + 1) e he

/-- If every attempt the budget allows observes a non-terminal status,
the polling loop returns no build. -/
theorem checkLoop_none (step : Nat) (polls : Nat → Build) (bid : String) :
    ∀ fuel i, (∀ j, j < fuel → isTerminalStatus (polls (i + j)) = false) →
      (checkLoop step polls bid fuel i).1 = none := by
  intro fuel
  induction fuel with
  | zero => intro i _; simp [checkLoop]
  | succ n ih =>
    intro i h
    have h0 : isTerminalStatus (polls i) = false := by
      have := h 0 (Nat.succ_pos n)
      simpa using this
    rw [checkLoop]
    simp only [h0, Bool.false_eq_true, if_false]
    apply ih
    intro j hj
    have := h (j + 1) (Nat.succ_lt_succ hj)
    simpa [Nat.add_assoc, Nat.add_comm 1 j] using this

/-- If the polling loop runs at least one attempt, it polls the given
build id. -/
theorem checkLoop_mem_getBuild (step : Nat) (polls : Nat → Build) (bid : String)
    (fuel i : Nat) (h : 0 < fuel) :
    Event.getBuild bid ∈ (checkLoop step polls bid fuel i).2 := by
  cases fuel with
  | zero => exact absurd h (Nat.lt_irrefl 0)
  | succ n =>
    rw [checkLoop]
    by_cases ht : isTerminalStatus (polls i) = true
    · simp [ht]
    · simp [eq_false_of_ne_true ht]

/-- If the first terminal status appears at attempt `k` within the
budget, the loop returns that build, and the waits taken are exactly
`step * (i+j+1)` for `j < k`. -/
theorem checkLoop_terminal (step : Nat) (polls : Nat → Build) (bid : String) :
    ∀ fuel i k, k < fuel →
      (∀ j, j < k → isTerminalStatus (polls (i + j)) = false) →
      isTerminalStatus (polls (i + k)) = true →
      (checkLoop step polls bid fuel i).1 = some (polls (i + k)) ∧
      sleepDurations (checkLoop step polls bid fuel i).2 =
        (List.range k).map (fun j => step * (i + j + 1)) := by
  intro fuel
  induction fuel with
  | zero => intro i k hk; exact absurd hk (Nat.not_lt_zero k)
  | succ n ih =>
    intro i k hk hnt ht
    cases k with
    | zero =>
      have ht0 : isTerminalStatus (polls i) = true := by simpa using ht
      rw [checkLoop]
      simp [ht0, sleepDurations]
    | succ m =>
      have h0 : isTerminalStatus (polls i) = false := by
        have := hnt 0 (Nat.succ_pos m)
        simpa using this
      have hm : m < n := Nat.lt_of_succ_lt_succ hk
      have hnt' : ∀ j, j < m → isTerminalStatus (polls (i + 1 + j)) = false := by
        intro j hj
        have := hnt (j + 1) (Nat.succ_lt_succ hj)
        have harg : i + (j + 1) = i + 1 + j := by omega
        rwa [harg] at this
      have ht' : isTerminalStatus (polls (i + 1 + m)) = true := by
        have harg : i + (m + 1) = i + 1 + m := by omega
        rwa [harg] at ht
      obtain ⟨ihres, ihsleep⟩ := ih (i + 1) m hm hnt' ht'
      rw [checkLoop]
      simp only [h0, Bool.false_eq_true, if_false]
      constructor
      · rw [ihres]
        have harg : i + 1 + m = i + (m + 1) := by omega
        rw [harg]
      · simp only [sleepDurations, List.filterMap_cons] at ihsleep ⊢
        rw [ihsleep]
        rw [List.range_succ_eq_map]
        simp only [List.map_cons, List.map_map, Nat.add_zero]
        congr 1
        apply List.map_congr_left
        intro j _
        simp only [Function.comp_apply, Nat.succ_eq_add_one]
        congr 1
        omega

/-- Every event of the outcome-interpretation stage is a record update
or the log fetch. -/
theorem finishBuild_events (env : Env) (r : Release) (res : Option Build) :
    ∀ e ∈ (finishBuild env r res).2.1,
      (∃ u, e = Event.update u) ∨ e = Event.fetchLog := by
  intro e he
  cases res with
  | none =>
    simp [finishBuild] at he
    exact Or.inl ⟨_, he⟩
  | some b =>
    simp only [finishBuild] at he
    split at he
    · simp at he
      exact Or.inl ⟨_, he⟩
    · split at he
      · split at he <;>
          · simp at he
            rcases he with he | he | he
            · exact Or.inl ⟨_, he⟩
            · exact Or.inr he
            · exact Or.inl ⟨_, he⟩
      · split at he <;>
          · simp at he
            exact Or.inl ⟨_, he⟩

/-- Unfolding of `build()` on a non-succeeded release into its stages. -/
theorem build_eq (cfg : Config) (env : Env) (r : Release)
    (h : r.state ≠ RState.succeeded) :
    build cfg env r =
      ((finishBuild env (preparedRelease cfg env r) (pollResult cfg env r)).1,
       stageEvents cfg env r ++ pollEvents cfg env r ++
         (finishBuild env (preparedRelease cfg env r) (pollResult cfg env r)).2.1,
       (finishBuild env (preparedRelease cfg env r) (pollResult cfg env r)).2.2) := by
  unfold build
  rw [if_neg h]
  simp [preparedRelease, stageEvents, pollEvents, pollResult, List.append_assoc]

/-- Outcome interpretation on a `Completed`/`Failed` build: persist
`failed`, fetch the log, persist reason and log together, and raise
exactly for `badGateway`/`serverError`. -/
theorem finishBuild_completedFailed (env : Env) (r : Release) (b : Build)
    (hs : b.status = BStatus.completed) (hr : b.result = some BResult.failed) :
    finishBuild env r (some b) =
      (applyUpdate (applyUpdate r uFailed) (uLogAndReason env.publishLog),
       [Event.update uFailed, Event.fetchLog, Event.update (uLogAndReason env.publishLog)],
       if getReasonFromPublishLog env.publishLog = Reason.badGateway ∨
          getReasonFromPublishLog env.publishLog = Reason.serverError
        then Outcome.error else Outcome.ok) := by
  simp only [finishBuild]
  have hns : ¬(b.status = BStatus.completed ∧ b.result = some BResult.succeeded) := by
    intro hcon
    rw [hr] at hcon
    exact absurd hcon.2 (by simp)
  rw [if_neg hns, if_pos ⟨hs, hr⟩]
  by_cases hbg : getReasonFromPublishLog env.publishLog = Reason.badGateway ∨
      getReasonFromPublishLog env.publishLog = Reason.serverError
  · rw [if_pos hbg, if_neg (by tauto)]
  · rw [if_neg hbg, if_pos (by tauto)]

/-- Sanitized characters are never illegal. -/
theorem isIllegalChar_sanitizeChar (c : Char) : isIllegalChar (sanitizeChar c) = false := by
  unfold sanitizeChar
  by_cases h : isIllegalChar c = true
  · rw [if_pos h]; decide
  · rw [if_neg h]; exact eq_false_of_ne_true h

/-- The character list underlying a computed build name. -/
theorem getBuildName_toList (releaseId : Nat) (packageName packageVer : String) :
    (getBuildName releaseId packageName packageVer).toList =
      (("rel#" ++ toString releaseId ++ "-" ++
        (if ['@'].isPrefixOf (packageName ++ "#" ++ packageVer).toList then
          String.mk ((packageName ++ "#" ++ packageVer).toList.drop 1)
         else packageName ++ "#" ++ packageVer)).toList.map sanitizeChar).take (255 - 55) :=
  rfl

/-- C6: invoking the driver on a release already in `succeeded` state is
a no-op: the persisted record is returned unchanged, the trace of
external operations is empty, and no error is raised. -/
theorem c6_succeeded_noop (cfg : Config) (env : Env) (r : Release)
    (h : r.state = RState.succeeded) :
    build cfg env r = (r, [], Outcome.ok) := by
  simp [build, h]

/-- Witness for C6 on a concrete succeeded release. -/
theorem c6_succeeded_noop_witness :
    build cfgW envCF rSucceededW = (rSucceededW, [], Outcome.ok) :=
  c6_succeeded_noop cfgW envCF rSucceededW rfl

/-- C7: if the first terminal status (`Completed` or `Cancelling`)
appears at attempt `k` within the budget, the polling loop returns that
build immediately with no wait after it, the waits taken before were
exactly `retryIntervalStep * (j+1)` for each earlier attempt `j`, and
the wait sequence is non-decreasing. -/
theorem c7_backoff (cfg : Config) (env : Env) (bid : String) (k : Nat)
    (hk : k < cfg.retries)
    (hnt : ∀ j, j < k → isTerminalStatus (env.polls j) = false)
    (ht : isTerminalStatus (env.polls k) = true) :
    (checkBuildPipelines cfg env bid).1 = some (env.polls k) ∧
    sleepDurations (checkBuildPipelines cfg env bid).2 =
      (List.range k).map (fun j => cfg.retryIntervalStep * (j + 1)) ∧
    List.Pairwise (· ≤ ·) (sleepDurations (checkBuildPipelines cfg env bid).2) := by
  have hnt0 : ∀ j, j < k → isTerminalStatus (env.polls (0 + j)) = false := by
    intro j hj; simpa using hnt j hj
  have ht0 : isTerminalStatus (env.polls (0 + k)) = true := by simpa using ht
  obtain ⟨hres, hsleep⟩ :=
    checkLoop_terminal cfg.retryIntervalStep env.polls bid cfg.retries 0 k hk hnt0 ht0
  have hsleep' : sleepDurations (checkBuildPipelines cfg env bid).2 =
      (List.range k).map (fun j => cfg.retryIntervalStep * (j + 1)) := by
    rw [checkBuildPipelines, hsleep]
    apply List.map_congr_left
    intro j _
    congr 1
    omega
  refine ⟨by simpa [checkBuildPipelines] using hres, hsleep', ?_⟩
  rw [hsleep']
  rw [List.pairwise_map]
  apply List.Pairwise.imp ?_ (List.pairwise_lt_range k)
  intro a b hab
  exact Nat.mul_le_mul (Nat.le_refl _) (by omega)

/-- Witness for C7: terminal status on the third attempt of three. -/
theorem c7_backoff_witness :
    (checkBuildPipelines cfgW3 envStep "7").1 = some (envStep.polls 2) ∧
    sleepDurations (checkBuildPipelines cfgW3 envStep "7").2 =
      (List.range 2).map (fun j => cfgW3.retryIntervalStep * (j + 1)) ∧
    List.Pairwise (· ≤ ·) (sleepDurations (checkBuildPipelines cfgW3 envStep "7").2) :=
  c7_backoff cfgW3 envStep "7" 2 (by decide) (by decide) (by decide)

/-- C8: the failure classifier agrees everywhere with the first-match
scan over the spec's prioritized rule list, and any log text containing
both the publish-conflict marker and the bad-gateway marker classifies
as `publishConflict`. -/
theorem c8_classify_priority (t : String)
    (h1 : containsSub t "EPUBLISHCONFLICT" = true)
    (_h2 : containsSub t "error code E502" = true) :
    (∀ s : String, getReasonFromPublishLog s = specFirstMatch specLogRules s) ∧
    getReasonFromPublishLog t = Reason.publishConflict := by
  constructor
  · intro s
    by_cases hA : containsSub s "EPUBLISHCONFLICT" = true <;>
    by_cases hB : (containsSub s "ENOENT" && containsSub s "error path package.json") = true <;>
    by_cases hC : containsSub s "error code E502" = true <;>
    by_cases hD : containsSub s "error code E500" = true <;>
      simp [getReasonFromPublishLog, specFirstMatch, specLogRules, List.find?, hA, hB, hC, hD]
  · simp [getReasonFromPublishLog, h1]

/-- Witness for C8 on a log text carrying both markers. -/
theorem c8_classify_priority_witness :
    getReasonFromPublishLog "EPUBLISHCONFLICT error code E502" = Reason.publishConflict :=
  (c8_classify_priority "EPUBLISHCONFLICT error code E502" (by decide) (by decide)).2

/-- C9: the build-name function is a pure function whose output always
fits in 200 characters and never contains an illegal character, and on
release 42, package `@scope/pkg`, version `1.2.3` it strips the leading
`@` and produces exactly `rel#42-scope_pkg#1.2.3`. -/
theorem c9_buildName_safe (releaseId : Nat) (packageName packageVer : String) :
    (getBuildName releaseId packageName packageVer).length ≤ 200 ∧
    (getBuildName releaseId packageName packageVer).toList.all
      (fun c => !(isIllegalChar c)) = true ∧
    getBuildName 42 "@scope/pkg" "1.2.3" = "rel#42-scope_pkg#1.2.3" := by
  refine ⟨?_, ?_, by decide⟩
  · have hlen : (getBuildName releaseId packageName packageVer).length =
        (getBuildName releaseId packageName packageVer).toList.length := rfl
    rw [hlen, getBuildName_toList]
    calc (((("rel#" ++ toString releaseId ++ "-" ++
          (if ['@'].isPrefixOf (packageName ++ "#" ++ packageVer).toList then
            String.mk ((packageName ++ "#" ++ packageVer).toList.drop 1)
           else packageName ++ "#" ++ packageVer)).toList.map sanitizeChar)).take (255 - 55)).length
        ≤ 255 - 55 := List.length_take_le _ _
      _ ≤ 200 := by norm_num
  · rw [List.all_eq_true]
    intro c hc
    rw [getBuildName_toList] at hc
    have hmem := List.mem_of_mem_take hc
    obtain ⟨d, _, hd⟩ := List.mem_map.mp hmem
    rw [← hd]
    simp [isIllegalChar_sanitizeChar d]

/-- The polling loop never queues a build. -/
theorem countP_isQueueEv_checkLoop (step : Nat) (polls : Nat → Build) (bid : String)
    (fuel i : Nat) :
    ((checkLoop step polls bid fuel i).2).countP isQueueEv = 0 := by
  rw [List.countP_eq_zero]
  intro e he
  rcases checkLoop_events step polls bid fuel i e he with h | ⟨d, h⟩ <;>
    subst h <;> simp [isQueueEv]

/-- The outcome-interpretation stage never queues a build. -/
theorem countP_isQueueEv_finishBuild (env : Env) (r : Release) (res : Option Build) :
    ((finishBuild env r res).2.1).countP isQueueEv = 0 := by
  rw [List.countP_eq_zero]
  intro e he
  rcases finishBuild_events env r res e he with ⟨u, h⟩ | h <;>
    subst h <;> simp [isQueueEv]

/-- C1 (amended): on a `Completed`/`Failed` termination the driver
persists `state=failed` in its own update first, then fetches the log
and persists `reason` and `publish_log` together in a second single
update; between the two updates an intermediate with `state=failed` and
the old `reason`/`publish_log` is persisted. -/
theorem c1_failed_then_log (cfg : Config) (env : Env) (r : Release) (b : Build)
    (h0 : r.state ≠ RState.succeeded)
    (hp : pollResult cfg env r = some b)
    (hs : b.status = BStatus.completed)
    (hr : b.result = some BResult.failed) :
    (build cfg env r).2.1 =
      stageEvents cfg env r ++ pollEvents cfg env r ++
        [Event.update uFailed, Event.fetchLog, Event.update (uLogAndReason env.publishLog)] ∧
    uFailed.state = some RState.failed ∧ uFailed.reason = none ∧ uFailed.publish_log = none ∧
    (uLogAndReason env.publishLog).state = none ∧
    (uLogAndReason env.publishLog).reason = some (getReasonFromPublishLog env.publishLog) ∧
    (uLogAndReason env.publishLog).publish_log = some env.publishLog := by
  have hb := build_eq cfg env r h0
  rw [hp, finishBuild_completedFailed env _ b hs hr] at hb
  rw [hb]
  exact ⟨by simp [List.append_assoc], rfl, rfl, rfl, rfl, rfl, rfl⟩

/-- Witness for C1 (amended) on a concrete failed build. -/
theorem c1_failed_then_log_witness :
    (build cfgW envCF rBuildingW).2.1 =
      stageEvents cfgW envCF rBuildingW ++ pollEvents cfgW envCF rBuildingW ++
        [Event.update uFailed, Event.fetchLog, Event.update (uLogAndReason envCF.publishLog)] :=
  (c1_failed_then_log cfgW envCF rBuildingW ⟨BStatus.completed, some BResult.failed⟩
    (by decide) (by decide) rfl rfl).1

/-- C1 (counterexample): in a concrete run ending `Completed`/`Failed`
the driver writes `state=failed`, `reason` and `publish_log`, but no
single update carries all three fields: the state change and the
reason/log pair are two separate persisted updates. -/
theorem c1_single_update_counterexample :
    (build cfgW envCF rBuildingW).1.state = RState.failed ∧
    (build cfgW envCF rBuildingW).1.reason = Reason.badGateway ∧
    (build cfgW envCF rBuildingW).1.publish_log = "error code E502" ∧
    (build cfgW envCF rBuildingW).2.1.countP setsStateReasonAndLog = 0 ∧
    (build cfgW envCF rBuildingW).2.1.countP isUpdateEv = 2 ∧
    (build cfgW envCF rBuildingW).2.1 =
      [Event.getBuild "7", Event.update uFailed, Event.fetchLog,
       Event.update (uLogAndReason "error code E502")] := by
  decide

/-- C2: on a `Completed`/`Failed` termination the driver raises an error
exactly when the log classifies as `badGateway` or `serverError`, and in
every case the failed state, the classified reason and the log are
already persisted when it returns or raises. -/
theorem c2_retryable_iff (cfg : Config) (env : Env) (r : Release) (b : Build)
    (h0 : r.state ≠ RState.succeeded)
    (hp : pollResult cfg env r = some b)
    (hs : b.status = BStatus.completed)
    (hr : b.result = some BResult.failed) :
    ((build cfg env r).2.2 = Outcome.error ↔
      (getReasonFromPublishLog env.publishLog = Reason.badGateway ∨
       getReasonFromPublishLog env.publishLog = Reason.serverError)) ∧
    (build cfg env r).1.state = RState.failed ∧
    (build cfg env r).1.reason = getReasonFromPublishLog env.publishLog ∧
    (build cfg env r).1.publish_log = env.publishLog := by
  have hb := build_eq cfg env r h0
  rw [hp, finishBuild_completedFailed env _ b hs hr] at hb
  rw [hb]
  refine ⟨?_, ?_, ?_, ?_⟩
  · by_cases hg : getReasonFromPublishLog env.publishLog = Reason.badGateway ∨
        getReasonFromPublishLog env.publishLog = Reason.serverError
    · simp [hg]
    · simp [hg]
  · simp [applyUpdate, uFailed, uLogAndReason]
  · simp [applyUpdate, uFailed, uLogAndReason]
  · simp [applyUpdate, uFailed, uLogAndReason]

/-- Witness for C2: a `badGateway` log raises on a concrete run. -/
theorem c2_retryable_iff_witness :
    ((build cfgW envCF rBuildingW).2.2 = Outcome.error ↔
      (getReasonFromPublishLog envCF.publishLog = Reason.badGateway ∨
       getReasonFromPublishLog envCF.publishLog = Reason.serverError)) ∧
    (build cfgW envCF rBuildingW).1.state = RState.failed :=
  ⟨(c2_retryable_iff cfgW envCF rBuildingW ⟨BStatus.completed, some BResult.failed⟩
      (by decide) (by decide) rfl rfl).1,
   (c2_retryable_iff cfgW envCF rBuildingW ⟨BStatus.completed, some BResult.failed⟩
      (by decide) (by decide) rfl rfl).2.1⟩

/-- C3: when every allowed polling attempt observes a non-terminal
status, the loop returns no build, and the driver persists
`state=failed, reason=timeout` as the last external operation before
raising the retryable error. -/
theorem c3_timeout_exhaustion (cfg : Config) (env : Env) (r : Release)
    (h0 : r.state ≠ RState.succeeded)
    (hnt : ∀ i, i < cfg.retries → isTerminalStatus (env.polls i) = false) :
    pollResult cfg env r = none ∧
    (build cfg env r).1.state = RState.failed ∧
    (build cfg env r).1.reason = Reason.timeout ∧
    (build cfg env r).2.2 = Outcome.error ∧
    (build cfg env r).2.1 =
      stageEvents cfg env r ++ pollEvents cfg env r ++ [Event.update uFailedTimeout] := by
  have hnone : pollResult cfg env r = none := by
    unfold pollResult checkBuildPipelines
    apply checkLoop_none
    intro j hj
    simpa using hnt j hj
  have hb := build_eq cfg env r h0
  rw [hnone] at hb
  rw [hb]
  exact ⟨hnone, rfl, rfl, rfl, by simp [finishBuild, List.append_assoc]⟩

/-- Witness for C3 with a pipeline that never leaves `InProgress`. -/
theorem c3_timeout_exhaustion_witness :
    pollResult cfgW2 envTO rPendingW = none ∧
    (build cfgW2 envTO rPendingW).1.state = RState.failed ∧
    (build cfgW2 envTO rPendingW).1.reason = Reason.timeout ∧
    (build cfgW2 envTO rPendingW).2.2 = Outcome.error ∧
    (build cfgW2 envTO rPendingW).2.1 =
      stageEvents cfgW2 envTO rPendingW ++ pollEvents cfgW2 envTO rPendingW ++
        [Event.update uFailedTimeout] :=
  c3_timeout_exhaustion cfgW2 envTO rPendingW (by decide) (by decide)

/-- C4: a timed-out failed release with a recorded build id moves to
`building` by an update not touching `build_id`, no new build is queued,
and every pipeline poll of the invocation targets that same build id. -/
theorem c4_timeout_resume (cfg : Config) (env : Env) (r : Release)
    (hf : r.state = RState.failed) (ht : r.reason = Reason.timeout)
    (hb : r.build_id ≠ "") (hret : 0 < cfg.retries) :
    (build cfg env r).2.1.head? = some (Event.update uBuildingKeepId) ∧
    uBuildingKeepId.build_id = none ∧
    (preparedRelease cfg env r).state = RState.building ∧
    (preparedRelease cfg env r).build_id = r.build_id ∧
    Event.queueBuild ∉ (build cfg env r).2.1 ∧
    Event.getBuild r.build_id ∈ (build cfg env r).2.1 ∧
    (∀ bid, Event.getBuild bid ∈ (build cfg env r).2.1 → bid = r.build_id) := by
  have hne : r.state ≠ RState.succeeded := by rw [hf]; simp
  have htr : transitionRelease r =
      (applyUpdate r uBuildingKeepId, [Event.update uBuildingKeepId]) := by
    rw [transitionRelease, if_pos ⟨hf, ht⟩]
  have hbid1 : (applyUpdate r uBuildingKeepId).build_id = r.build_id := rfl
  have hens : ensureBuildQueued cfg env (applyUpdate r uBuildingKeepId) =
      (applyUpdate r uBuildingKeepId, []) := by
    rw [ensureBuildQueued, hbid1, if_neg hb]
  have hprep : preparedRelease cfg env r = applyUpdate r uBuildingKeepId := by
    unfold preparedRelease
    rw [htr, hens]
  have hpb : (preparedRelease cfg env r).build_id = r.build_id := by
    rw [hprep]
    exact hbid1
  have hstage : stageEvents cfg env r = [Event.update uBuildingKeepId] := by
    unfold stageEvents
    rw [htr, hens]
    rfl
  have hpoll : pollEvents cfg env r = (checkBuildPipelines cfg env r.build_id).2 := by
    unfold pollEvents
    rw [hpb]
  have htrace := build_eq cfg env r hne
  refine ⟨?_, rfl, by rw [hprep]; rfl, hpb, ?_, ?_, ?_⟩
  · rw [htrace]
    simp [hstage]
  · rw [htrace]
    simp only [List.mem_append]
    rintro ((hmem | hmem) | hmem)
    · rw [hstage] at hmem
      simp at hmem
    · rw [hpoll] at hmem
      rcases checkLoop_events cfg.retryIntervalStep env.polls r.build_id cfg.retries 0
          Event.queueBuild hmem with h | ⟨d, h⟩ <;> cases h
    · rcases finishBuild_events env (preparedRelease cfg env r) (pollResult cfg env r)
          Event.queueBuild hmem with ⟨u, h⟩ | h <;> cases h
  · rw [htrace]
    simp only [List.mem_append]
    left; right
    rw [hpoll]
    exact checkLoop_mem_getBuild cfg.retryIntervalStep env.polls r.build_id cfg.retries 0 hret
  · intro bid hmem
    rw [htrace] at hmem
    simp only [List.mem_append] at hmem
    rcases hmem with (hmem | hmem) | hmem
    · rw [hstage] at hmem
      simp at hmem
    · rw [hpoll] at hmem
      rcases checkLoop_events cfg.retryIntervalStep env.polls r.build_id cfg.retries 0
          (Event.getBuild bid) hmem with h | ⟨d, h⟩
      · injection h
      · cases h
    · rcases finishBuild_events env (preparedRelease cfg env r) (pollResult cfg env r)
          (Event.getBuild bid) hmem with ⟨u, h⟩ | h <;> cases h

/-- Witness for C4 on a concrete timed-out release. -/
theorem c4_timeout_resume_witness :
    (build cfgW envCF rTimeoutW).2.1.head? = some (Event.update uBuildingKeepId) ∧
    uBuildingKeepId.build_id = none ∧
    (preparedRelease cfgW envCF rTimeoutW).state = RState.building ∧
    (preparedRelease cfgW envCF rTimeoutW).build_id = rTimeoutW.build_id ∧
    Event.queueBuild ∉ (build cfgW envCF rTimeoutW).2.1 ∧
    Event.getBuild rTimeoutW.build_id ∈ (build cfgW envCF rTimeoutW).2.1 ∧
    (∀ bid, Event.getBuild bid ∈ (build cfgW envCF rTimeoutW).2.1 → bid = rTimeoutW.build_id) :=
  c4_timeout_resume cfgW envCF rTimeoutW rfl rfl (by decide) (by decide)

/-- C5: a pending release, or a failed one with a non-timeout reason,
moves to `building` with `build_id` cleared, then exactly one new build
is queued, its id is persisted, and the fixed delay is waited before the
polling events start. -/
theorem c5_fresh_start (cfg : Config) (env : Env) (r : Release)
    (hstart : r.state = RState.pending ∨
      (r.state = RState.failed ∧ r.reason ≠ Reason.timeout)) :
    (build cfg env r).2.1 =
      Event.update uBuildingClearId :: Event.queueBuild ::
      Event.update (uSetBuildId (toString env.queuedBuildId)) :: Event.sleep cfg.duration ::
      (pollEvents cfg env r ++
       (finishBuild env (preparedRelease cfg env r) (pollResult cfg env r)).2.1) ∧
    (build cfg env r).2.1.countP isQueueEv = 1 ∧
    (preparedRelease cfg env r).state = RState.building ∧
    (preparedRelease cfg env r).build_id = toString env.queuedBuildId := by
  have hne : r.state ≠ RState.succeeded := by
    rcases hstart with h | ⟨h, _⟩ <;> rw [h] <;> simp
  have hc1 : ¬(r.state = RState.failed ∧ r.reason = Reason.timeout) := by
    rcases hstart with h | ⟨_, hnt⟩
    · rintro ⟨hp', _⟩
      rw [h] at hp'
      cases hp'
    · rintro ⟨_, ht'⟩
      exact hnt ht'
  have hc2 : r.state = RState.pending ∨ r.state = RState.failed := by
    rcases hstart with h | ⟨h, _⟩
    · exact Or.inl h
    · exact Or.inr h
  have htr : transitionRelease r =
      (applyUpdate r uBuildingClearId, [Event.update uBuildingClearId]) := by
    rw [transitionRelease, if_neg hc1, if_pos hc2]
  have hbid1 : (applyUpdate r uBuildingClearId).build_id = "" := rfl
  have hens : ensureBuildQueued cfg env (applyUpdate r uBuildingClearId) =
      (applyUpdate (applyUpdate r uBuildingClearId) (uSetBuildId (toString env.queuedBuildId)),
       [Event.queueBuild, Event.update (uSetBuildId (toString env.queuedBuildId)),
        Event.sleep cfg.duration]) := by
    rw [ensureBuildQueued, if_pos hbid1]
  have hprep : preparedRelease cfg env r =
      applyUpdate (applyUpdate r uBuildingClearId) (uSetBuildId (toString env.queuedBuildId)) := by
    unfold preparedRelease
    rw [htr, hens]
  have hstage : stageEvents cfg env r =
      [Event.update uBuildingClearId, Event.queueBuild,
       Event.update (uSetBuildId (toString env.queuedBuildId)), Event.sleep cfg.duration] := by
    unfold stageEvents
    rw [htr, hens]
    rfl
  refine ⟨?_, ?_, by rw [hprep]; rfl, by rw [hprep]; rfl⟩
  · rw [build_eq cfg env r hne]
    dsimp only
    rw [hstage]
    simp [List.append_assoc]
  · rw [build_eq cfg env r hne]
    dsimp only
    rw [hstage, List.countP_append, List.countP_append]
    have hpq : (pollEvents cfg env r).countP isQueueEv = 0 := by
      unfold pollEvents checkBuildPipelines
      exact countP_isQueueEv_checkLoop _ _ _ _ _
    have hfq : ((finishBuild env (preparedRelease cfg env r)
        (pollResult cfg env r)).2.1).countP isQueueEv = 0 :=
      countP_isQueueEv_finishBuild _ _ _
    rw [hpq, hfq]
    simp [List.countP_cons, isQueueEv]

/-- Witness for C5 on a concrete pending release. -/
theorem c5_fresh_start_witness :
    (build cfgW envCF rPendingW).2.1 =
      Event.update uBuildingClearId :: Event.queueBuild ::
      Event.update (uSetBuildId (toString envCF.queuedBuildId)) :: Event.sleep cfgW.duration ::
      (pollEvents cfgW envCF rPendingW ++
       (finishBuild envCF (preparedRelease cfgW envCF rPendingW)
         (pollResult cfgW envCF rPendingW)).2.1) ∧
    (build cfgW envCF rPendingW).2.1.countP isQueueEv = 1 ∧
    (preparedRelease cfgW envCF rPendingW).state = RState.building ∧
    (preparedRelease cfgW envCF rPendingW).build_id = toString envCF.queuedBuildId :=
  c5_fresh_start cfgW envCF rPendingW (Or.inl rfl)

/-- C10: a timed-out failed release with an empty `build_id` transitions
to `building` by an update not carrying `build_id`, and since no build
id is present the driver then queues a fresh build and persists the new
id — the resumption rule degrades to a fresh start. -/
theorem c10_timeout_fresh_start (cfg : Config) (env : Env) (r : Release)
    (hf : r.state = RState.failed) (ht : r.reason = Reason.timeout)
    (hb : r.build_id = "") :
    (build cfg env r).2.1 =
      Event.update uBuildingKeepId :: Event.queueBuild ::
      Event.update (uSetBuildId (toString env.queuedBuildId)) :: Event.sleep cfg.duration ::
      (pollEvents cfg env r ++
       (finishBuild env (preparedRelease cfg env r) (pollResult cfg env r)).2.1) ∧
    uBuildingKeepId.build_id = none ∧
    (build cfg env r).2.1.countP isQueueEv = 1 ∧
    (preparedRelease cfg env r).state = RState.building ∧
    (preparedRelease cfg env r).build_id = toString env.queuedBuildId := by
  have hne : r.state ≠ RState.succeeded := by rw [hf]; simp
  have htr : transitionRelease r =
      (applyUpdate r uBuildingKeepId, [Event.update uBuildingKeepId]) := by
    rw [transitionRelease, if_pos ⟨hf, ht⟩]
  have hbid1 : (applyUpdate r uBuildingKeepId).build_id = "" := by
    have hkeep : (applyUpdate r uBuildingKeepId).build_id = r.build_id := rfl
    rw [hkeep, hb]
  have hens : ensureBuildQueued cfg env (applyUpdate r uBuildingKeepId) =
      (applyUpdate (applyUpdate r uBuildingKeepId) (uSetBuildId (toString env.queuedBuildId)),
       [Event.queueBuild, Event.update (uSetBuildId (toString env.queuedBuildId)),
        Event.sleep cfg.duration]) := by
    rw [ensureBuildQueued, if_pos hbid1]
  have hprep : preparedRelease cfg env r =
      applyUpdate (applyUpdate r uBuildingKeepId) (uSetBuildId (toString env.queuedBuildId)) := by
    unfold preparedRelease
    rw [htr, hens]
  have hstage : stageEvents cfg env r =
      [Event.update uBuildingKeepId, Event.queueBuild,
       Event.update (uSetBuildId (toString env.queuedBuildId)), Event.sleep cfg.duration] := by
    unfold stageEvents
    rw [htr, hens]
    rfl
  refine ⟨?_, rfl, ?_, by rw [hprep]; rfl, by rw [hprep]; rfl⟩
  · rw [build_eq cfg env r hne]
    dsimp only
    rw [hstage]
    simp [List.append_assoc]
  · rw [build_eq cfg env r hne]
    dsimp only
    rw [hstage, List.countP_append, List.countP_append]
    have hpq : (pollEvents cfg env r).countP isQueueEv = 0 := by
      unfold pollEvents checkBuildPipelines
      exact countP_isQueueEv_checkLoop _ _ _ _ _
    have hfq : ((finishBuild env (preparedRelease cfg env r)
        (pollResult cfg env r)).2.1).countP isQueueEv = 0 :=
      countP_isQueueEv_finishBuild _ _ _
    rw [hpq, hfq]
    simp [List.countP_cons, isQueueEv]

/-- Witness for C10 on a concrete timed-out release without a build id. -/
theorem c10_timeout_fresh_start_witness :
    (build cfgW envCF rTimeoutEmptyW).2.1 =
      Event.update uBuildingKeepId :: Event.queueBuild ::
      Event.update (uSetBuildId (toString envCF.queuedBuildId)) :: Event.sleep cfgW.duration ::
      (pollEvents cfgW envCF rTimeoutEmptyW ++
       (finishBuild envCF (preparedRelease cfgW envCF rTimeoutEmptyW)
         (pollResult cfgW envCF rTimeoutEmptyW)).2.1) ∧
    uBuildingKeepId.build_id = none ∧
    (build cfgW envCF rTimeoutEmptyW).2.1.countP isQueueEv = 1 ∧
    (preparedRelease cfgW envCF rTimeoutEmptyW).state = RState.building ∧
    (preparedRelease cfgW envCF rTimeoutEmptyW).build_id = toString envCF.queuedBuildId :=
  c10_timeout_fresh_start cfgW envCF rTimeoutEmptyW rfl rfl rfl

end BuildRelease
